import Mathlib

/-!
Shallow embedding of the osdag bolt-capacity calculator
(`src/Connections/connection_calculations.py`) and the anchor-bolt geometry
builders (`src/cad/items/anchor_bolt.py`).  Python floats are modelled as
real numbers; Python 3 `/` is real division, `int(...)` truncates toward
zero, `math.ceil` is `Int.ceil`, `round(x, 3)` rounds to the nearest
multiple of 1/1000, and `x % y` on numbers is `x - y * ⌊x / y⌋`.
Fallible lookups and attribute reads return `Option` / an error flag.
-/

open scoped Classical

noncomputable section

/-- Python `int(x)` on a float: truncation toward zero. -/
noncomputable def pytrunc (x : ℝ) : ℤ :=
  if 0 ≤ x then ⌊x⌋ else ⌈x⌉

/-- Python `x % y` for numbers (sign follows the divisor, as CPython). -/
noncomputable def pymod (x y : ℝ) : ℝ :=
  x - y * ⌊x / y⌋

/-- Python `round(x, 3)`: round to the nearest multiple of 1/1000 (ties are
immaterial for every value this development evaluates). -/
noncomputable def pyround3 (x : ℝ) : ℝ :=
  (round (x * 1000) : ℤ) / 1000

/-- Partial safety factor `gamma_mb = 1.25` used by the capacity formulas. -/
def gamma_mb : ℝ := 1.25

/-- The `bolt_area` lookup table of `ConnectionCalculations.bolt_shear`:
net tensile stress area (mm²) keyed by bolt diameter; `none` models the
`KeyError` a missing key raises. -/
def bolt_area (bolt_diameter : ℤ) : Option ℝ :=
  if bolt_diameter = 12 then some 84.3
  else if bolt_diameter = 16 then some 157
  else if bolt_diameter = 20 then some 245
  else if bolt_diameter = 22 then some 303
  else if bolt_diameter = 24 then some 353
  else if bolt_diameter = 27 then some 459
  else if bolt_diameter = 30 then some 561
  else if bolt_diameter = 36 then some 817
  else none

/-- The nominal (unfactored, unrounded) shear capacity computed inside
`ConnectionCalculations.bolt_shear`:
`bolt_fu * number_of_bolts * bolt_area / sqrt(3) / 1000`. -/
noncomputable def bolt_shear_nominal (bolt_diameter : ℤ)
    (number_of_bolts bolt_fu : ℝ) : Option ℝ :=
  (bolt_area bolt_diameter).map fun area =>
    bolt_fu * number_of_bolts * area / Real.sqrt 3 / 1000

/-- `ConnectionCalculations.bolt_shear`: factored shear capacity,
`round(nominal / gamma_mb, 3)`; `none` models the `KeyError` on an
unlisted diameter. -/
noncomputable def bolt_shear (bolt_diameter : ℤ)
    (number_of_bolts bolt_fu : ℝ) : Option ℝ :=
  (bolt_shear_nominal bolt_diameter number_of_bolts bolt_fu).map fun nominal =>
    pyround3 (nominal / gamma_mb)

/-- `ConnectionCalculations.bolt_bearing`: factored bearing capacity
`round(2.5 * k_b * d * n * t * f_u / 1000 / gamma_mb, 3)`.  No lookup is
performed, so the function is total. -/
noncomputable def bolt_bearing (bolt_diameter : ℝ)
    (number_of_bolts thickness_plate k_b plate_fu : ℝ) : ℝ :=
  pyround3 (2.5 * k_b * bolt_diameter * number_of_bolts * thickness_plate
      * plate_fu / 1000 / gamma_mb)

/-- Evaluation helper: `⌊x⌋ = n` from rational bounds. -/
theorem floor_eval {x : ℝ} {n : ℤ} (h1 : (n : ℝ) ≤ x) (h2 : x < n + 1) :
    ⌊x⌋ = n :=
  Int.floor_eq_iff.mpr ⟨h1, h2⟩

/-- Evaluation helper: `⌈x⌉ = n` from rational bounds. -/
theorem ceil_eval {x : ℝ} {n : ℤ} (h1 : (n : ℝ) - 1 < x) (h2 : x ≤ n) :
    ⌈x⌉ = n :=
  Int.ceil_eq_iff.mpr ⟨h1, h2⟩

/-- Evaluation helper: `round x = n` from rational bounds. -/
theorem round_eval {x : ℝ} {n : ℤ} (h1 : (n : ℝ) ≤ x + 1 / 2)
    (h2 : x + 1 / 2 < n + 1) : round x = n := by
  rw [round_eq]
  exact floor_eval h1 h2

theorem pyround3_nonneg {x : ℝ} (hx : 0 ≤ x) : 0 ≤ pyround3 x := by
  unfold pyround3
  have h : (0 : ℤ) ≤ round (x * 1000) := by
    rw [round_eq]
    exact Int.le_floor.mpr (by push_cast; nlinarith)
  have h2 : (0 : ℝ) ≤ ((round (x * 1000) : ℤ) : ℝ) := by exact_mod_cast h
  positivity

theorem pyround3_le_one {x : ℝ} (hx : x ≤ 1) : pyround3 x ≤ 1 := by
  unfold pyround3
  have h : round (x * 1000) ≤ 1000 := by
    rw [round_eq]
    have h2 : x * 1000 + 1 / 2 < 1001 := by nlinarith
    have h3 : ⌊x * 1000 + 1 / 2⌋ < 1001 := by
      exact_mod_cast lt_of_le_of_lt (Int.floor_le _) h2
    omega
  have h2 : ((round (x * 1000) : ℤ) : ℝ) ≤ 1000 := by exact_mod_cast h
  have h1000 : (0 : ℝ) < 1000 := by norm_num
  rw [div_le_one h1000]
  exact h2

/-- The standard-hole clearance table of
`ConnectionCalculations.bolt_hole_clearance` (IS 800 Table 19); `none`
models the `KeyError` a missing key raises (27 is not a key). -/
def std_hole_clearance (bolt_diameter : ℤ) : Option ℝ :=
  if bolt_diameter = 12 then some 1
  else if bolt_diameter = 14 then some 1
  else if bolt_diameter = 16 then some 2
  else if bolt_diameter = 18 then some 2
  else if bolt_diameter = 20 then some 2
  else if bolt_diameter = 22 then some 2
  else if bolt_diameter = 24 then some 2
  else if bolt_diameter = 30 then some 3
  else if bolt_diameter = 36 then some 3
  else none

/-- The over-size-hole clearance table of
`ConnectionCalculations.bolt_hole_clearance`; `none` models the
`KeyError` a missing key raises (27 is not a key). -/
def oversize_hole_clearance (bolt_diameter : ℤ) : Option ℝ :=
  if bolt_diameter = 12 then some 3
  else if bolt_diameter = 14 then some 3
  else if bolt_diameter = 16 then some 4
  else if bolt_diameter = 18 then some 4
  else if bolt_diameter = 20 then some 4
  else if bolt_diameter = 22 then some 4
  else if bolt_diameter = 24 then some 6
  else if bolt_diameter = 30 then some 8
  else if bolt_diameter = 36 then some 8
  else none

/-- `ConnectionCalculations.bolt_hole_clearance`.  The table lookup runs
first (its `KeyError` propagates, `none`); only then does a non-null
`custom_hole_clearance` overwrite the looked-up value.  A hole type other
than 1 (standard) and 0 (over size) binds no table value, so the final
read raises unless the override is present. -/
def bolt_hole_clearance (bolt_hole_type bolt_diameter : ℤ)
    (custom_hole_clearance : Option ℝ) : Option ℝ :=
  if bolt_hole_type = 1 then
    match std_hole_clearance bolt_diameter with
    | none => none
    | some v => some (custom_hole_clearance.getD v)
  else if bolt_hole_type = 0 then
    match oversize_hole_clearance bolt_diameter with
    | none => none
    | some v => some (custom_hole_clearance.getD v)
  else
    match custom_hole_clearance with
    | none => none
    | some c => some c

/-- Python exception kinds raised by the embedded code paths. -/
inductive PyErr where
  | nameError
  | attributeError
  | keyError
  | zeroDivisionError
  | valueError
  deriving DecidableEq

/-- The instance attributes of a `ConnectionCalculations` object that the
embedded methods read or write; `none` is an attribute not yet set
(reading it raises `AttributeError`). -/
structure ConnState where
  min_pitch : Option ℝ
  min_gauge : Option ℝ
  min_end_dist : Option ℝ
  min_edge_dist : Option ℝ
  max_spacing : Option ℝ
  max_edge_dist : Option ℝ
  angle_fy : Option ℝ
  end_dist : Option ℝ
  pitch : Option ℝ
  bolt_hole_diameter : Option ℝ
  bolt_fu : Option ℝ
  angle_fu : Option ℝ
  k_b : Option ℝ

/-- A `ConnectionCalculations` object with no attribute set. -/
def ConnState.fresh : ConnState :=
  ⟨none, none, none, none, none, none, none, none, none, none, none, none, none⟩

/-- The minimum-distance block of `ConnectionCalculations.calculate_distances`
(its first four assignments and the two rounding `if`s), as the tuple
`(min_pitch, min_gauge, min_end_dist, min_edge_dist)`.  Note the gauge
rounding line of the source reads the already reassigned `self.min_pitch`,
so in the rounding branch `min_gauge = min_pitch + 5 - min_pitch % 5`. -/
noncomputable def min_distances
    (bolt_diameter bolt_hole_diameter min_edge_multiplier : ℝ) :
    ℝ × ℝ × ℝ × ℝ :=
  let p0 : ℝ := (pytrunc (2.5 * bolt_diameter) : ℤ)
  let g0 : ℝ := (pytrunc (2.5 * bolt_diameter) : ℤ)
  let ed0 : ℝ := (⌈min_edge_multiplier * bolt_hole_diameter⌉ : ℤ)
  let eg0 : ℝ := (⌈min_edge_multiplier * bolt_hole_diameter⌉ : ℤ)
  let p1 := if pymod p0 5 ≠ 0 ∨ pymod g0 5 ≠ 0
    then (p0 / 5 + 1) * 5 - pymod p0 5 else p0
  let g1 := if pymod p0 5 ≠ 0 ∨ pymod g0 5 ≠ 0
    then (p1 / 5 + 1) * 5 - pymod p1 5 else g0
  let eg1 := if pymod eg0 5 ≠ 0 ∨ pymod ed0 5 ≠ 0
    then ((pytrunc (eg0 / 5) : ℤ) + 1 : ℝ) * 5 else eg0
  let ed1 := if pymod eg0 5 ≠ 0 ∨ pymod ed0 5 ≠ 0
    then ((pytrunc (ed0 / 5) : ℤ) + 1 : ℝ) * 5 else ed0
  (p1, g1, ed1, eg1)

/-- `ConnectionCalculations.calculate_distances`, executed step by step.
`thickness_governing` is the module-level name the method reads for the
two maximum formulas: no statement of the module ever binds it, so it is
whatever ambient state the caller injected (`none` raises `NameError`).
`angle_fy` is read from the instance (`none` raises `AttributeError`).
The method mutates the four minimum attributes BEFORE either ambient
read, so a failing call returns the partially updated state. -/
noncomputable def calculate_distances (thickness_governing : Option ℝ)
    (bolt_diameter bolt_hole_diameter min_edge_multiplier : ℝ)
    (s : ConnState) : ConnState × Option PyErr :=
  let md := min_distances bolt_diameter bolt_hole_diameter min_edge_multiplier
  let s1 := { s with min_pitch := some md.1, min_gauge := some md.2.1,
                     min_end_dist := some md.2.2.1,
                     min_edge_dist := some md.2.2.2 }
  match thickness_governing with
  | none => (s1, some PyErr.nameError)
  | some t =>
    let s2 := { s1 with
      max_spacing := some ((⌈min (32 * t) 300⌉ : ℤ) : ℝ) }
    match s2.angle_fy with
    | none => (s2, some PyErr.attributeError)
    | some fy =>
      if fy = 0 then (s2, some PyErr.zeroDivisionError)
      else if fy < 0 then (s2, some PyErr.valueError)
      else ({ s2 with
        max_edge_dist :=
          some ((⌈12 * t * Real.sqrt (250 / fy)⌉ : ℤ) : ℝ) }, none)

/-- `ConnectionCalculations.calculate_kb`: reads five instance attributes
(any missing one raises `AttributeError` before anything is written),
takes the minimum of the four candidate terms and stores it rounded to
3 decimals.  A zero hole diameter or zero `angle_fu` raises
`ZeroDivisionError`, again before any write. -/
noncomputable def calculate_kb (s : ConnState) : ConnState × Option PyErr :=
  match s.end_dist, s.pitch, s.bolt_hole_diameter, s.bolt_fu, s.angle_fu with
  | some e, some p, some h, some fu, some afu =>
    if h = 0 then (s, some PyErr.zeroDivisionError)
    else if afu = 0 then (s, some PyErr.zeroDivisionError)
    else
      let kb := min (min (min (e / (3 * h)) (p / (3 * h) - 0.25)) (fu / afu)) 1
      ({ s with k_b := some (pyround3 kb) }, none)
  | _, _, _, _, _ => (s, some PyErr.attributeError)

/-- A 3-D vector / point, the numpy arrays of `cad/items/anchor_bolt.py`. -/
structure Vec3 where
  x : ℝ
  y : ℝ
  z : ℝ

instance : Add Vec3 :=
  ⟨fun v w => ⟨v.x + w.x, v.y + w.y, v.z + w.z⟩⟩

instance : Sub Vec3 :=
  ⟨fun v w => ⟨v.x - w.x, v.y - w.y, v.z - w.z⟩⟩

instance : Neg Vec3 :=
  ⟨fun v => ⟨-v.x, -v.y, -v.z⟩⟩

instance : SMul ℝ Vec3 :=
  ⟨fun k v => ⟨k * v.x, k * v.y, k * v.z⟩⟩

/-- Euclidean dot product on `Vec3`. -/
def Vec3.dot (v w : Vec3) : ℝ :=
  v.x * w.x + v.y * w.y + v.z * w.z

/-- `numpy.cross` on `Vec3`. -/
def Vec3.cross (v w : Vec3) : Vec3 :=
  ⟨v.y * w.z - v.z * w.y, v.z * w.x - v.x * w.z, v.x * w.y - v.y * w.x⟩

theorem Vec3.dot_self_nonneg (v : Vec3) : 0 ≤ v.dot v := by
  unfold Vec3.dot
  nlinarith [sq_nonneg v.x, sq_nonneg v.y, sq_nonneg v.z]

theorem Vec3.cross_dot_left (v w : Vec3) : (Vec3.cross v w).dot v = 0 := by
  simp only [Vec3.cross, Vec3.dot]
  ring

/-- The state of an `AnchorBolt_A` object after `place`: the four
constructor dimensions and the stored placement. -/
structure AnchorBolt_A where
  l : ℝ
  c : ℝ
  a : ℝ
  r : ℝ
  origin : Vec3
  uDir : Vec3
  shaftDir : Vec3

/-- `AnchorBolt_A.place`: stores the placement as supplied. -/
def AnchorBolt_A.place (l c a r : ℝ) (origin uDir shaftDir : Vec3) :
    AnchorBolt_A :=
  ⟨l, c, a, r, origin, uDir, shaftDir⟩

/-- `self.cyl1_length = self.l - self.c` (Variant A). -/
def AnchorBolt_A.cyl1_length (b : AnchorBolt_A) : ℝ := b.l - b.c

/-- `self.cyl2_length = self.c - self.a / 2` (Variant A). -/
def AnchorBolt_A.cyl2_length (b : AnchorBolt_A) : ℝ := b.c - b.a / 2

/-- `self.cyl3_arc_dia = self.a / 2 - self.r` (Variant A). -/
def AnchorBolt_A.cyl3_arc_dia (b : AnchorBolt_A) : ℝ := b.a / 2 - b.r

/-- `self.cyl4_length = self.c - self.a / 2 - 4 * self.r` (Variant A). -/
def AnchorBolt_A.cyl4_length (b : AnchorBolt_A) : ℝ := b.c - b.a / 2 - 4 * b.r

/-- `self.p1 = self.origin` (Variant A). -/
def AnchorBolt_A.p1 (b : AnchorBolt_A) : Vec3 := b.origin

/-- `self.p2 = self.p1 - self.cyl1_length * self.shaftDir` (Variant A). -/
def AnchorBolt_A.p2 (b : AnchorBolt_A) : Vec3 :=
  b.p1 - b.cyl1_length • b.shaftDir

/-- `self.p3 = self.p2 - self.cyl3_arc_dia * self.uDir - self.cyl2_length *
self.shaftDir` (Variant A). -/
def AnchorBolt_A.p3 (b : AnchorBolt_A) : Vec3 :=
  b.p2 - b.cyl3_arc_dia • b.uDir - b.cyl2_length • b.shaftDir

/-- `self.p4 = self.p3 + self.cyl3_arc_dia * self.uDir` (Variant A). -/
def AnchorBolt_A.p4 (b : AnchorBolt_A) : Vec3 :=
  b.p3 + b.cyl3_arc_dia • b.uDir

/-- `self.p5 = self.p4 + self.cyl3_arc_dia * self.uDir` (Variant A). -/
def AnchorBolt_A.p5 (b : AnchorBolt_A) : Vec3 :=
  b.p4 + b.cyl3_arc_dia • b.uDir

/-- `self.p6 = self.p5 - (self.a / 2) * self.uDir + - (self.cyl3_arc_dia -
self.r) * self.shaftDir` (Variant A). -/
def AnchorBolt_A.p6 (b : AnchorBolt_A) : Vec3 :=
  b.p5 - (b.a / 2) • b.uDir + (-(b.cyl3_arc_dia - b.r)) • b.shaftDir

/-- `self.hightcyl2 = sqrt(square(self.cyl2_length) +
square(self.cyl3_arc_dia))` (Variant A). -/
noncomputable def AnchorBolt_A.hightcyl2 (b : AnchorBolt_A) : ℝ :=
  Real.sqrt (b.cyl2_length ^ 2 + b.cyl3_arc_dia ^ 2)

/-- The state of an `AnchorBolt_B` object after `place`. -/
structure AnchorBolt_B where
  l : ℝ
  c : ℝ
  a : ℝ
  r : ℝ
  origin : Vec3
  uDir : Vec3
  shaftDir : Vec3

/-- `AnchorBolt_B.place`: stores `self.shaftDir = -shaftDir`, the negation
of the supplied shaft direction. -/
def AnchorBolt_B.place (l c a r : ℝ) (origin uDir shaftDir : Vec3) :
    AnchorBolt_B :=
  ⟨l, c, a, r, origin, uDir, -shaftDir⟩

/-- `self.cyl4_arc_dia = 3 * self.r` (Variant B). -/
def AnchorBolt_B.cyl4_arc_dia (b : AnchorBolt_B) : ℝ := 3 * b.r

/-- `self.cyl3_length = 10 * self.r - self.cyl4_arc_dia` (Variant B). -/
def AnchorBolt_B.cyl3_length (b : AnchorBolt_B) : ℝ :=
  10 * b.r - b.cyl4_arc_dia

/-- `self.cyl2_length = 2 * self.r` (Variant B). -/
def AnchorBolt_B.cyl2_length (b : AnchorBolt_B) : ℝ := 2 * b.r

/-- `self.cyl1_length = self.l - self.cyl3_length - self.cyl2_length -
self.cyl4_arc_dia` (Variant B). -/
def AnchorBolt_B.cyl1_length (b : AnchorBolt_B) : ℝ :=
  b.l - b.cyl3_length - b.cyl2_length - b.cyl4_arc_dia

/-- `self.cyl5_length = 5 * self.r - 3 * self.r` (Variant B). -/
def AnchorBolt_B.cyl5_length (b : AnchorBolt_B) : ℝ := 5 * b.r - 3 * b.r

/-- `self.p1 = self.origin` (Variant B). -/
def AnchorBolt_B.p1 (b : AnchorBolt_B) : Vec3 := b.origin

/-- `self.p2 = self.p1 + self.cyl1_length * self.shaftDir` (Variant B;
`self.shaftDir` is the stored negation). -/
def AnchorBolt_B.p2 (b : AnchorBolt_B) : Vec3 :=
  b.p1 + b.cyl1_length • b.shaftDir

/-- `self.p3 = self.p2 - 2 * self.r * self.uDir + self.cyl2_length *
self.shaftDir` (Variant B). -/
def AnchorBolt_B.p3 (b : AnchorBolt_B) : Vec3 :=
  b.p2 - (2 * b.r) • b.uDir + b.cyl2_length • b.shaftDir

/-- `self.p4 = self.p3 + self.cyl3_length * self.shaftDir` (Variant B). -/
def AnchorBolt_B.p4 (b : AnchorBolt_B) : Vec3 :=
  b.p3 + b.cyl3_length • b.shaftDir

/-- `self.p5 = self.p4 + 2 * self.r * self.uDir` (Variant B). -/
def AnchorBolt_B.p5 (b : AnchorBolt_B) : Vec3 :=
  b.p4 + (2 * b.r) • b.uDir

/-- `self.p6 = self.p5 + 2 * self.r * self.uDir` (Variant B). -/
def AnchorBolt_B.p6 (b : AnchorBolt_B) : Vec3 :=
  b.p5 + (2 * b.r) • b.uDir

/-- The state of an `AnchorBolt_Endplate` object after `place`. -/
structure AnchorBolt_Endplate where
  l : ℝ
  c : ℝ
  a : ℝ
  r : ℝ
  origin : Vec3
  uDir : Vec3
  shaftDir : Vec3

/-- `AnchorBolt_Endplate.place`: stores the placement as supplied. -/
def AnchorBolt_Endplate.place (l c a r : ℝ) (origin uDir shaftDir : Vec3) :
    AnchorBolt_Endplate :=
  ⟨l, c, a, r, origin, uDir, shaftDir⟩

/-- `self.vDir = numpy.cross(self.shaftDir, self.uDir)` (Endplate). -/
def AnchorBolt_Endplate.vDir (b : AnchorBolt_Endplate) : Vec3 :=
  Vec3.cross b.shaftDir b.uDir

/-- `self.cyl1_length = self.l` (Endplate). -/
def AnchorBolt_Endplate.cyl1_length (b : AnchorBolt_Endplate) : ℝ := b.l

/-- `self.endplate_thickness = 5` (Endplate). -/
def AnchorBolt_Endplate.endplate_thickness (_ : AnchorBolt_Endplate) : ℝ := 5

/-- `self.head = self.endplate_thickness / 5` (Endplate). -/
def AnchorBolt_Endplate.head (b : AnchorBolt_Endplate) : ℝ :=
  b.endplate_thickness / 5

/-- `self.endplate_width = self.l / 2` (Endplate). -/
def AnchorBolt_Endplate.endplate_width (b : AnchorBolt_Endplate) : ℝ :=
  b.l / 2

/-- `self.p1 = self.origin` (Endplate). -/
def AnchorBolt_Endplate.p1 (b : AnchorBolt_Endplate) : Vec3 := b.origin

/-- `self.p2 = self.p1 - (self.l - self.endplate_thickness - self.head) *
self.shaftDir` (Endplate). -/
def AnchorBolt_Endplate.p2 (b : AnchorBolt_Endplate) : Vec3 :=
  b.p1 - (b.l - b.endplate_thickness - b.head) • b.shaftDir

/-- `self.p3 = self.p2 - self.endplate_width / 2 * self.uDir -
self.endplate_width / 2 * self.vDir - self.endplate_thickness / 2 *
self.shaftDir` (Endplate). -/
def AnchorBolt_Endplate.p3 (b : AnchorBolt_Endplate) : Vec3 :=
  b.p2 - (b.endplate_width / 2) • b.uDir - (b.endplate_width / 2) • b.vDir
    - (b.endplate_thickness / 2) • b.shaftDir

theorem Vec3.sub_def (v w : Vec3) :
    v - w = ⟨v.x - w.x, v.y - w.y, v.z - w.z⟩ := rfl

theorem Vec3.smul_def (k : ℝ) (v : Vec3) :
    k • v = ⟨k * v.x, k * v.y, k * v.z⟩ := rfl

theorem Vec3.add_dot (v w s : Vec3) : (v + w).dot s = v.dot s + w.dot s := by
  show Vec3.dot ⟨v.x + w.x, v.y + w.y, v.z + w.z⟩ s = _
  unfold Vec3.dot
  ring

theorem Vec3.sub_dot (v w s : Vec3) : (v - w).dot s = v.dot s - w.dot s := by
  show Vec3.dot ⟨v.x - w.x, v.y - w.y, v.z - w.z⟩ s = _
  unfold Vec3.dot
  ring

theorem Vec3.smul_dot (k : ℝ) (v s : Vec3) :
    (k • v).dot s = k * v.dot s := by
  show Vec3.dot ⟨k * v.x, k * v.y, k * v.z⟩ s = _
  unfold Vec3.dot
  ring

theorem Vec3.neg_dot (v s : Vec3) : (-v).dot s = -(v.dot s) := by
  show Vec3.dot ⟨-v.x, -v.y, -v.z⟩ s = _
  unfold Vec3.dot
  ring

theorem sqrt3_bounds :
    (1.7320508 : ℝ) < Real.sqrt 3 ∧ Real.sqrt 3 < 1.7320509 := by
  constructor
  · rw [Real.lt_sqrt (by norm_num)]
    norm_num
  · rw [Real.sqrt_lt' (by norm_num)]
    norm_num

/-- C8 counterexample: for a standard hole of diameter 27 the table lookup
raises `KeyError` before the override is consulted, so even with
`custom_hole_clearance = 5` the call fails instead of returning 5. -/
theorem bolt_hole_clearance_override_not_unconditional :
    bolt_hole_clearance 1 27 (some 5) = none ∧
    (none : Option ℝ) ≠ some 5 := by
  constructor
  · norm_num [bolt_hole_clearance, std_hole_clearance]
  · simp

/-- C8 (amended): a non-null `custom_hole_clearance` is returned whenever
the selected table lookup succeeds (the diameter is a key of the standard
or over-size table), and for every hole type other than 0 and 1 — but not
for an unlisted diameter with hole type 0 or 1, where the `KeyError`
fires first.  With no override, a standard hole of diameter 20 yields
2 mm. -/
theorem bolt_hole_clearance_override_and_table (d ht : ℤ) (cov : ℝ) :
    ((std_hole_clearance d).isSome →
      bolt_hole_clearance 1 d (some cov) = some cov) ∧
    ((oversize_hole_clearance d).isSome →
      bolt_hole_clearance 0 d (some cov) = some cov) ∧
    (ht ≠ 0 → ht ≠ 1 → bolt_hole_clearance ht d (some cov) = some cov) ∧
    bolt_hole_clearance 1 20 none = some 2 := by
  refine ⟨?_, ?_, ?_, ?_⟩
  · intro h
    unfold bolt_hole_clearance
    rw [if_pos rfl]
    cases hs : std_hole_clearance d with
    | none => rw [hs] at h; simp at h
    | some v => simp
  · intro h
    unfold bolt_hole_clearance
    rw [if_neg (by norm_num), if_pos rfl]
    cases hs : oversize_hole_clearance d with
    | none => rw [hs] at h; simp at h
    | some v => simp
  · intro h0 h1
    unfold bolt_hole_clearance
    rw [if_neg h1, if_neg h0]
  · norm_num [bolt_hole_clearance, std_hole_clearance]

/-- Helper: a successful area lookup with a non-negative area gives a
non-negative factored shear capacity. -/
theorem bolt_shear_nonneg_of_area {d : ℤ} {area n fu : ℝ}
    (hA : bolt_area d = some area) (hA0 : 0 ≤ area) (hn : 0 ≤ n)
    (hfu : 0 ≤ fu) :
    ∃ v, bolt_shear d n fu = some v ∧ 0 ≤ v := by
  refine ⟨pyround3 (fu * n * area / Real.sqrt 3 / 1000 / gamma_mb), ?_, ?_⟩
  · simp [bolt_shear, bolt_shear_nominal, hA]
  · apply pyround3_nonneg
    have hs : 0 ≤ Real.sqrt 3 := Real.sqrt_nonneg 3
    have hg : (0 : ℝ) ≤ gamma_mb := by norm_num [gamma_mb]
    exact div_nonneg (div_nonneg (div_nonneg
      (mul_nonneg (mul_nonneg hfu hn) hA0) hs) (by norm_num)) hg

/-- C4 (amended): `bolt_shear` succeeds exactly on the diameters of its
area table — {12, 16, 20, 22, 24, 27, 30, 36}; 14 and 18 are NOT keys —
returning a non-negative value for non-negative count and strength, and
fails with `KeyError` (`none`) on every other diameter.  `bolt_bearing`
performs no lookup at all: it is total and returns a non-negative value
for non-negative inputs (including a non-negative `k_b`) at every
diameter. -/
theorem bolt_shear_bearing_domains (d : ℤ) (n fu dd t kb pfu : ℝ) :
    ((d = 12 ∨ d = 16 ∨ d = 20 ∨ d = 22 ∨ d = 24 ∨ d = 27 ∨ d = 30 ∨
        d = 36) → 0 ≤ n → 0 ≤ fu →
      ∃ v, bolt_shear d n fu = some v ∧ 0 ≤ v) ∧
    (¬(d = 12 ∨ d = 16 ∨ d = 20 ∨ d = 22 ∨ d = 24 ∨ d = 27 ∨ d = 30 ∨
        d = 36) → bolt_shear d n fu = none) ∧
    (0 ≤ dd → 0 ≤ n → 0 ≤ t → 0 ≤ kb → 0 ≤ pfu →
      0 ≤ bolt_bearing dd n t kb pfu) := by
  refine ⟨?_, ?_, ?_⟩
  · intro hd hn hfu
    rcases hd with h | h | h | h | h | h | h | h <;> subst h
    · exact @bolt_shear_nonneg_of_area 12 84.3 n fu
        (by norm_num [bolt_area]) (by norm_num) hn hfu
    · exact @bolt_shear_nonneg_of_area 16 157 n fu
        (by norm_num [bolt_area]) (by norm_num) hn hfu
    · exact @bolt_shear_nonneg_of_area 20 245 n fu
        (by norm_num [bolt_area]) (by norm_num) hn hfu
    · exact @bolt_shear_nonneg_of_area 22 303 n fu
        (by norm_num [bolt_area]) (by norm_num) hn hfu
    · exact @bolt_shear_nonneg_of_area 24 353 n fu
        (by norm_num [bolt_area]) (by norm_num) hn hfu
    · exact @bolt_shear_nonneg_of_area 27 459 n fu
        (by norm_num [bolt_area]) (by norm_num) hn hfu
    · exact @bolt_shear_nonneg_of_area 30 561 n fu
        (by norm_num [bolt_area]) (by norm_num) hn hfu
    · exact @bolt_shear_nonneg_of_area 36 817 n fu
        (by norm_num [bolt_area]) (by norm_num) hn hfu
  · intro hd
    simp only [not_or] at hd
    obtain ⟨h12, h16, h20, h22, h24, h27, h30, h36⟩ := hd
    simp [bolt_shear, bolt_shear_nominal, bolt_area, h12, h16, h20, h22,
      h24, h27, h30, h36]
  · intro hdd hn ht hkb hpfu
    apply pyround3_nonneg
    have hg : (0 : ℝ) ≤ gamma_mb := by norm_num [gamma_mb]
    exact div_nonneg (div_nonneg
      (mul_nonneg (mul_nonneg (mul_nonneg (mul_nonneg
        (mul_nonneg (by norm_num) hkb) hdd) hn) ht) hpfu)
      (by norm_num)) hg

/-- C4 counterexample: diameter 14 belongs to the claim's enumerated set,
its count and strength are non-negative, yet `bolt_shear` raises
`KeyError` (the area table has no key 14) instead of returning a value. -/
theorem bolt_shear_14_fails :
    bolt_shear 14 1 410 = none ∧ bolt_shear 18 1 410 = none := by
  constructor <;> norm_num [bolt_shear, bolt_shear_nominal, bolt_area]

theorem shear_16_4_410_rounded :
    pyround3 (410 * 4 * 157 / Real.sqrt 3 / 1000 / gamma_mb) = 118.925 := by
  have hpos : (0 : ℝ) < Real.sqrt 3 := Real.sqrt_pos.mpr (by norm_num)
  have hb := sqrt3_bounds
  unfold pyround3
  have hy : 410 * 4 * 157 / Real.sqrt 3 / 1000 / gamma_mb * 1000
      = 205984 / Real.sqrt 3 := by
    unfold gamma_mb
    field_simp
    ring
  rw [hy]
  have low : (118924.5 : ℝ) ≤ 205984 / Real.sqrt 3 := by
    rw [le_div_iff₀ hpos]
    nlinarith [hb.2]
  have high : 205984 / Real.sqrt 3 < 118925.5 := by
    rw [div_lt_iff₀ hpos]
    nlinarith [hb.1]
  have hr : round (205984 / Real.sqrt 3) = 118925 :=
    round_eval (by push_cast; linarith) (by push_cast; linarith)
  rw [hr]
  norm_num

theorem shear_16_1_410_rounded :
    pyround3 (410 * 1 * 157 / Real.sqrt 3 / 1000 / gamma_mb) = 29.731 := by
  have hpos : (0 : ℝ) < Real.sqrt 3 := Real.sqrt_pos.mpr (by norm_num)
  have hb := sqrt3_bounds
  unfold pyround3
  have hy : 410 * 1 * 157 / Real.sqrt 3 / 1000 / gamma_mb * 1000
      = 51496 / Real.sqrt 3 := by
    unfold gamma_mb
    field_simp
    ring
  rw [hy]
  have low : (29730.5 : ℝ) ≤ 51496 / Real.sqrt 3 := by
    rw [le_div_iff₀ hpos]
    nlinarith [hb.2]
  have high : 51496 / Real.sqrt 3 < 29731.5 := by
    rw [div_lt_iff₀ hpos]
    nlinarith [hb.1]
  have hr : round (51496 / Real.sqrt 3) = 29731 :=
    round_eval (by push_cast; linarith) (by push_cast; linarith)
  rw [hr]
  norm_num

theorem bolt_shear_16_4_410_eval : bolt_shear 16 4 410 = some 118.925 := by
  have h : bolt_shear 16 4 410
      = some (pyround3 (410 * 4 * 157 / Real.sqrt 3 / 1000 / gamma_mb)) := by
    norm_num [bolt_shear, bolt_shear_nominal, bolt_area]
  rw [h, shear_16_4_410_rounded]

theorem bolt_shear_16_1_410_eval : bolt_shear 16 1 410 = some 29.731 := by
  have h : bolt_shear 16 1 410
      = some (pyround3 (410 * 1 * 157 / Real.sqrt 3 / 1000 / gamma_mb)) := by
    norm_num [bolt_shear, bolt_shear_nominal, bolt_area]
  rw [h, shear_16_1_410_rounded]

/-- C5 counterexample: `bolt_shear(16, 4, 410)` returns 118.925 kN, not the
119.07 kN the claim states (119.07 comes from approximating `sqrt(3)` by
1.73; the code uses `math.sqrt(3)`). -/
theorem bolt_shear_16_4_410_not_119_07 :
    bolt_shear 16 4 410 = some 118.925 ∧ (118.925 : ℝ) ≠ 119.07 := by
  exact ⟨bolt_shear_16_4_410_eval, by norm_num⟩

/-- C5 (amended): `bolt_shear(16, 4, 410)` returns exactly
`round(410*4*157/sqrt(3)/1000/1.25, 3)`, and that value is 118.925 kN. -/
theorem bolt_shear_16_4_410_value :
    bolt_shear 16 4 410
      = some (pyround3 (410 * 4 * 157 / Real.sqrt 3 / 1000 / gamma_mb)) ∧
    pyround3 (410 * 4 * 157 / Real.sqrt 3 / 1000 / gamma_mb) = 118.925 := by
  refine ⟨?_, shear_16_4_410_rounded⟩
  norm_num [bolt_shear, bolt_shear_nominal, bolt_area]

/-- C6 counterexample: rounding breaks linearity in the bolt count:
`bolt_shear(16, 4, 410) = 118.925` but `4 * bolt_shear(16, 1, 410) =
4 * 29.731 = 118.924`. -/
theorem bolt_shear_not_linear_in_count :
    bolt_shear 16 4 410 = some 118.925 ∧
    bolt_shear 16 1 410 = some 29.731 ∧
    (118.925 : ℝ) ≠ 4 * 29.731 := by
  exact ⟨bolt_shear_16_4_410_eval, bolt_shear_16_1_410_eval, by norm_num⟩

/-- C6 (amended): the NOMINAL shear capacity (before the final
round-to-3-decimals) is exactly linear in the bolt count; the returned
(rounded) capacity can differ from `n` times the one-bolt result by a
rounding residue, as the counterexample shows. -/
theorem bolt_shear_nominal_linear (d : ℤ) (n fu : ℝ) :
    bolt_shear_nominal d n fu
      = (bolt_shear_nominal d 1 fu).map (fun v => n * v) := by
  unfold bolt_shear_nominal
  cases h : bolt_area d with
  | none => simp
  | some area =>
    simp only [Option.map]
    congr 1
    ring

/-- The Variant A example of the spec: `l=200, c=105, a=60, r=8`, placed
at the origin with `u = (1,0,0)` and `shaft = (0,0,1)`. -/
def anchorA_example : AnchorBolt_A :=
  AnchorBolt_A.place 200 105 60 8 ⟨0, 0, 0⟩ ⟨1, 0, 0⟩ ⟨0, 0, 1⟩

/-- C9: the Variant A builder with `l=200, c=105, a=60, r=8` placed at the
origin derives `cyl1_length = 95 = l - c`, `cyl2_length = 75`,
`cyl3_arc_dia = 22`, `cyl4_length = 43`, and the angled second cylinder's
height is the Euclidean hypotenuse `sqrt(cyl2_length² + cyl3_arc_dia²)`. -/
theorem anchorA_concrete_params :
    anchorA_example.cyl1_length = 95 ∧
    anchorA_example.cyl1_length = anchorA_example.l - anchorA_example.c ∧
    anchorA_example.cyl2_length = 75 ∧
    anchorA_example.cyl3_arc_dia = 22 ∧
    anchorA_example.cyl4_length = 43 ∧
    anchorA_example.hightcyl2 =
      Real.sqrt (anchorA_example.cyl2_length ^ 2 +
        anchorA_example.cyl3_arc_dia ^ 2) := by
  refine ⟨?_, ?_, ?_, ?_, ?_, rfl⟩ <;>
    norm_num [anchorA_example, AnchorBolt_A.place, AnchorBolt_A.cyl1_length,
      AnchorBolt_A.cyl2_length, AnchorBolt_A.cyl3_arc_dia,
      AnchorBolt_A.cyl4_length]

/-- C10 (amended): with an orthogonal placement frame, every control point
after `p1` of variants A and B lies at a non-positive component along the
supplied shaft direction whenever the derived cylinder lengths and the
radius are non-negative (B stores the negation of the supplied direction);
for the Endplate variant the same holds provided additionally
`l ≥ endplate_thickness + head = 6`. -/
theorem anchor_body_opposite_shaft (l c a r : ℝ) (o u sh : Vec3) :
    (0 ≤ r → 0 ≤ (AnchorBolt_A.place l c a r o u sh).cyl1_length →
      0 ≤ (AnchorBolt_A.place l c a r o u sh).cyl2_length →
      0 ≤ (AnchorBolt_A.place l c a r o u sh).cyl3_arc_dia →
      0 ≤ (AnchorBolt_A.place l c a r o u sh).cyl4_length →
      u.dot sh = 0 →
      ((AnchorBolt_A.place l c a r o u sh).p2 - o).dot sh ≤ 0 ∧
      ((AnchorBolt_A.place l c a r o u sh).p3 - o).dot sh ≤ 0 ∧
      ((AnchorBolt_A.place l c a r o u sh).p4 - o).dot sh ≤ 0 ∧
      ((AnchorBolt_A.place l c a r o u sh).p5 - o).dot sh ≤ 0 ∧
      ((AnchorBolt_A.place l c a r o u sh).p6 - o).dot sh ≤ 0) ∧
    ((AnchorBolt_B.place l c a r o u sh).shaftDir = -sh ∧
      (0 ≤ r → 0 ≤ (AnchorBolt_B.place l c a r o u sh).cyl1_length →
        u.dot sh = 0 →
        ((AnchorBolt_B.place l c a r o u sh).p2 - o).dot sh ≤ 0 ∧
        ((AnchorBolt_B.place l c a r o u sh).p3 - o).dot sh ≤ 0 ∧
        ((AnchorBolt_B.place l c a r o u sh).p4 - o).dot sh ≤ 0 ∧
        ((AnchorBolt_B.place l c a r o u sh).p5 - o).dot sh ≤ 0 ∧
        ((AnchorBolt_B.place l c a r o u sh).p6 - o).dot sh ≤ 0)) ∧
    ((AnchorBolt_Endplate.place l c a r o u sh).endplate_thickness +
        (AnchorBolt_Endplate.place l c a r o u sh).head ≤ l →
      u.dot sh = 0 →
      ((AnchorBolt_Endplate.place l c a r o u sh).p2 - o).dot sh ≤ 0 ∧
      ((AnchorBolt_Endplate.place l c a r o u sh).p3 - o).dot sh ≤ 0) := by
  have hS : 0 ≤ sh.dot sh := Vec3.dot_self_nonneg sh
  refine ⟨?_, ⟨rfl, ?_⟩, ?_⟩
  · intro hr h1 h2 h3 h4 hU
    simp only [AnchorBolt_A.place, AnchorBolt_A.cyl1_length,
      AnchorBolt_A.cyl2_length, AnchorBolt_A.cyl3_arc_dia,
      AnchorBolt_A.cyl4_length] at h1 h2 h3 h4
    have e2 : ((AnchorBolt_A.place l c a r o u sh).p2 - o).dot sh
        = -((l - c) * sh.dot sh) := by
      simp only [AnchorBolt_A.p2, AnchorBolt_A.p1, AnchorBolt_A.place,
        AnchorBolt_A.cyl1_length, Vec3.sub_dot, Vec3.smul_dot]
      ring
    have e3 : ((AnchorBolt_A.place l c a r o u sh).p3 - o).dot sh
        = -((a / 2 - r) * u.dot sh)
          - ((l - c) + (c - a / 2)) * sh.dot sh := by
      simp only [AnchorBolt_A.p3, AnchorBolt_A.p2, AnchorBolt_A.p1,
        AnchorBolt_A.place, AnchorBolt_A.cyl1_length, AnchorBolt_A.cyl2_length,
        AnchorBolt_A.cyl3_arc_dia, Vec3.sub_dot, Vec3.smul_dot]
      ring
    have e4 : ((AnchorBolt_A.place l c a r o u sh).p4 - o).dot sh
        = -(((l - c) + (c - a / 2)) * sh.dot sh) := by
      simp only [AnchorBolt_A.p4, AnchorBolt_A.p3, AnchorBolt_A.p2,
        AnchorBolt_A.p1, AnchorBolt_A.place, AnchorBolt_A.cyl1_length,
        AnchorBolt_A.cyl2_length, AnchorBolt_A.cyl3_arc_dia, Vec3.sub_dot,
        Vec3.add_dot, Vec3.smul_dot]
      ring
    have e5 : ((AnchorBolt_A.place l c a r o u sh).p5 - o).dot sh
        = (a / 2 - r) * u.dot sh
          - ((l - c) + (c - a / 2)) * sh.dot sh := by
      simp only [AnchorBolt_A.p5, AnchorBolt_A.p4, AnchorBolt_A.p3,
        AnchorBolt_A.p2, AnchorBolt_A.p1, AnchorBolt_A.place,
        AnchorBolt_A.cyl1_length, AnchorBolt_A.cyl2_length,
        AnchorBolt_A.cyl3_arc_dia, Vec3.sub_dot, Vec3.add_dot, Vec3.smul_dot]
      ring
    have e6 : ((AnchorBolt_A.place l c a r o u sh).p6 - o).dot sh
        = (a / 2 - r - a / 2) * u.dot sh
          - ((l - c) + (c - a / 2) + (a / 2 - r) - r) * sh.dot sh := by
      simp only [AnchorBolt_A.p6, AnchorBolt_A.p5, AnchorBolt_A.p4,
        AnchorBolt_A.p3, AnchorBolt_A.p2, AnchorBolt_A.p1, AnchorBolt_A.place,
        AnchorBolt_A.cyl1_length, AnchorBolt_A.cyl2_length,
        AnchorBolt_A.cyl3_arc_dia, Vec3.sub_dot, Vec3.add_dot, Vec3.smul_dot]
      ring
    rw [e2, e3, e4, e5, e6, hU]
    refine ⟨?_, ?_, ?_, ?_, ?_⟩ <;>
      nlinarith [mul_nonneg h1 hS, mul_nonneg h2 hS, mul_nonneg h3 hS,
        mul_nonneg h4 hS, mul_nonneg hr hS]
  · intro hr h1 hU
    simp only [AnchorBolt_B.place, AnchorBolt_B.cyl1_length,
      AnchorBolt_B.cyl2_length, AnchorBolt_B.cyl3_length,
      AnchorBolt_B.cyl4_arc_dia] at h1
    have e2 : ((AnchorBolt_B.place l c a r o u sh).p2 - o).dot sh
        = -((l - (10 * r - 3 * r) - 2 * r - 3 * r) * sh.dot sh) := by
      simp only [AnchorBolt_B.p2, AnchorBolt_B.p1, AnchorBolt_B.place,
        AnchorBolt_B.cyl1_length, AnchorBolt_B.cyl2_length,
        AnchorBolt_B.cyl3_length, AnchorBolt_B.cyl4_arc_dia, Vec3.add_dot,
        Vec3.sub_dot, Vec3.smul_dot, Vec3.neg_dot]
      ring
    have e3 : ((AnchorBolt_B.place l c a r o u sh).p3 - o).dot sh
        = -(2 * r * u.dot sh)
          - ((l - (10 * r - 3 * r) - 2 * r - 3 * r) + 2 * r) * sh.dot sh := by
      simp only [AnchorBolt_B.p3, AnchorBolt_B.p2, AnchorBolt_B.p1,
        AnchorBolt_B.place, AnchorBolt_B.cyl1_length, AnchorBolt_B.cyl2_length,
        AnchorBolt_B.cyl3_length, AnchorBolt_B.cyl4_arc_dia, Vec3.add_dot,
        Vec3.sub_dot, Vec3.smul_dot, Vec3.neg_dot]
      ring
    have e4 : ((AnchorBolt_B.place l c a r o u sh).p4 - o).dot sh
        = -(2 * r * u.dot sh)
          - ((l - (10 * r - 3 * r) - 2 * r - 3 * r) + 2 * r
              + (10 * r - 3 * r)) * sh.dot sh := by
      simp only [AnchorBolt_B.p4, AnchorBolt_B.p3, AnchorBolt_B.p2,
        AnchorBolt_B.p1, AnchorBolt_B.place, AnchorBolt_B.cyl1_length,
        AnchorBolt_B.cyl2_length, AnchorBolt_B.cyl3_length,
        AnchorBolt_B.cyl4_arc_dia, Vec3.add_dot, Vec3.sub_dot, Vec3.smul_dot,
        Vec3.neg_dot]
      ring
    have e5 : ((AnchorBolt_B.place l c a r o u sh).p5 - o).dot sh
        = -((l - (10 * r - 3 * r) - 2 * r - 3 * r) + 2 * r
              + (10 * r - 3 * r)) * sh.dot sh := by
      simp only [AnchorBolt_B.p5, AnchorBolt_B.p4, AnchorBolt_B.p3,
        AnchorBolt_B.p2, AnchorBolt_B.p1, AnchorBolt_B.place,
        AnchorBolt_B.cyl1_length, AnchorBolt_B.cyl2_length,
        AnchorBolt_B.cyl3_length, AnchorBolt_B.cyl4_arc_dia, Vec3.add_dot,
        Vec3.sub_dot, Vec3.smul_dot, Vec3.neg_dot]
      rw [hU]
      ring
    have e6 : ((AnchorBolt_B.place l c a r o u sh).p6 - o).dot sh
        = -((l - (10 * r - 3 * r) - 2 * r - 3 * r) + 2 * r
              + (10 * r - 3 * r)) * sh.dot sh := by
      simp only [AnchorBolt_B.p6, AnchorBolt_B.p5, AnchorBolt_B.p4,
        AnchorBolt_B.p3, AnchorBolt_B.p2, AnchorBolt_B.p1, AnchorBolt_B.place,
        AnchorBolt_B.cyl1_length, AnchorBolt_B.cyl2_length,
        AnchorBolt_B.cyl3_length, AnchorBolt_B.cyl4_arc_dia, Vec3.add_dot,
        Vec3.sub_dot, Vec3.smul_dot, Vec3.neg_dot]
      rw [hU]
      ring
    rw [e2, e3, e4, e5, e6, hU]
    refine ⟨?_, ?_, ?_, ?_, ?_⟩ <;>
      nlinarith [mul_nonneg h1 hS, mul_nonneg hr hS]
  · intro hl hU
    simp only [AnchorBolt_Endplate.place, AnchorBolt_Endplate.endplate_thickness,
      AnchorBolt_Endplate.head] at hl
    have e2 : ((AnchorBolt_Endplate.place l c a r o u sh).p2 - o).dot sh
        = -((l - 5 - 5 / 5) * sh.dot sh) := by
      simp only [AnchorBolt_Endplate.p2, AnchorBolt_Endplate.p1,
        AnchorBolt_Endplate.place, AnchorBolt_Endplate.endplate_thickness,
        AnchorBolt_Endplate.head, Vec3.sub_dot, Vec3.smul_dot]
      ring
    have e3 : ((AnchorBolt_Endplate.place l c a r o u sh).p3 - o).dot sh
        = -((l / 2 / 2) * u.dot sh)
          - ((l - 5 - 5 / 5) + 5 / 2) * sh.dot sh := by
      simp only [AnchorBolt_Endplate.p3, AnchorBolt_Endplate.p2,
        AnchorBolt_Endplate.p1, AnchorBolt_Endplate.place,
        AnchorBolt_Endplate.endplate_thickness, AnchorBolt_Endplate.head,
        AnchorBolt_Endplate.endplate_width, AnchorBolt_Endplate.vDir,
        Vec3.sub_dot, Vec3.smul_dot, Vec3.cross_dot_left]
      ring
    rw [e2, e3, hU]
    have h6 : (0 : ℝ) ≤ l - 6 := by linarith
    constructor <;> nlinarith [mul_nonneg h6 hS, hS]

/-- The Endplate builder placed with zero dimensions: every derived length
is non-negative (they are all 0), yet `p2` lies at a strictly positive
component along the supplied shaft direction. -/
def anchorE_degenerate : AnchorBolt_Endplate :=
  AnchorBolt_Endplate.place 0 0 0 0 ⟨0, 0, 0⟩ ⟨1, 0, 0⟩ ⟨0, 0, 1⟩

/-- C10 counterexample: for the Endplate variant with `l = 0` (so the one
derived cylinder length, `cyl1_length = l`, is non-negative) and the frame
`u = (1,0,0)`, `shaft = (0,0,1)`, the control point `p2` has component +6
along the supplied shaft direction — the body extends WITH the shaft
direction, refuting the claim as stated. -/
theorem anchorE_degenerate_positive_component :
    anchorE_degenerate.cyl1_length = 0 ∧
    (anchorE_degenerate.p2 - anchorE_degenerate.origin).dot
      anchorE_degenerate.shaftDir = 6 ∧
    (0 : ℝ) < 6 := by
  refine ⟨rfl, ?_, by norm_num⟩
  norm_num [anchorE_degenerate, AnchorBolt_Endplate.place,
    AnchorBolt_Endplate.p2, AnchorBolt_Endplate.p1,
    AnchorBolt_Endplate.endplate_thickness, AnchorBolt_Endplate.head,
    Vec3.sub_def, Vec3.smul_def, Vec3.dot]

theorem pymod_67_5 : pymod (67 : ℝ) 5 = 2 := by
  unfold pymod
  rw [@floor_eval ((67 : ℝ) / 5) 13 (by norm_num) (by norm_num)]
  norm_num

theorem pymod_70_5 : pymod (70 : ℝ) 5 = 0 := by
  unfold pymod
  rw [@floor_eval ((70 : ℝ) / 5) 14 (by norm_num) (by norm_num)]
  norm_num

theorem pymod_50_5 : pymod (50 : ℝ) 5 = 0 := by
  unfold pymod
  rw [@floor_eval ((50 : ℝ) / 5) 10 (by norm_num) (by norm_num)]
  norm_num

theorem pymod_44_5 : pymod (44 : ℝ) 5 = 4 := by
  unfold pymod
  rw [@floor_eval ((44 : ℝ) / 5) 8 (by norm_num) (by norm_num)]
  norm_num

theorem pymod_33_5 : pymod (33 : ℝ) 5 = 3 := by
  unfold pymod
  rw [@floor_eval ((33 : ℝ) / 5) 6 (by norm_num) (by norm_num)]
  norm_num

theorem min_distances_27_29 : min_distances 27 29 1.5 = (70, 75, 45, 45) := by
  unfold min_distances
  have e1 : pytrunc (2.5 * (27 : ℝ)) = 67 := by
    unfold pytrunc
    rw [if_pos (by norm_num)]
    exact @floor_eval (2.5 * (27 : ℝ)) 67 (by norm_num) (by norm_num)
  have e1b : pytrunc ((135 : ℝ) / 2) = 67 := by
    unfold pytrunc
    rw [if_pos (by norm_num)]
    exact @floor_eval ((135 : ℝ) / 2) 67 (by norm_num) (by norm_num)
  have e2 : (⌈(1.5 * 29 : ℝ)⌉ : ℤ) = 44 :=
    @ceil_eval ((1.5 * 29 : ℝ)) 44 (by norm_num) (by norm_num)
  have e2b : (⌈(87 : ℝ) / 2⌉ : ℤ) = 44 :=
    @ceil_eval ((87 : ℝ) / 2) 44 (by norm_num) (by norm_num)
  have e3 : pytrunc ((44 : ℝ) / 5) = 8 := by
    unfold pytrunc
    rw [if_pos (by norm_num)]
    exact @floor_eval ((44 : ℝ) / 5) 8 (by norm_num) (by norm_num)
  norm_num [e1, e1b, e2, e2b, e3, pymod_67_5, pymod_70_5, pymod_44_5]

theorem min_distances_20_22 : min_distances 20 22 1.5 = (50, 50, 35, 35) := by
  unfold min_distances
  have e1 : pytrunc (2.5 * (20 : ℝ)) = 50 := by
    unfold pytrunc
    rw [if_pos (by norm_num)]
    exact @floor_eval (2.5 * (20 : ℝ)) 50 (by norm_num) (by norm_num)
  have e1b : pytrunc ((50 : ℝ)) = 50 := by
    unfold pytrunc
    rw [if_pos (by norm_num)]
    exact @floor_eval ((50 : ℝ)) 50 (by norm_num) (by norm_num)
  have e2 : (⌈(1.5 * 22 : ℝ)⌉ : ℤ) = 33 :=
    @ceil_eval ((1.5 * 22 : ℝ)) 33 (by norm_num) (by norm_num)
  have e2b : (⌈(33 : ℝ)⌉ : ℤ) = 33 :=
    @ceil_eval ((33 : ℝ)) 33 (by norm_num) (by norm_num)
  have e3 : pytrunc ((33 : ℝ) / 5) = 6 := by
    unfold pytrunc
    rw [if_pos (by norm_num)]
    exact @floor_eval ((33 : ℝ) / 5) 6 (by norm_num) (by norm_num)
  norm_num [e1, e1b, e2, e2b, e3, pymod_50_5, pymod_33_5]

/-- C1: with the governing thickness injected as ambient state and a
positive `angle_fy` set on the instance, `calculate_distances` succeeds
and populates `max_spacing = ceil(min(32*t, 300))` and
`max_edge_dist = ceil(12*t*sqrt(250/fy))`. -/
theorem calculate_distances_max_formulas (s : ConnState) (t fy d h m : ℝ)
    (hfy : s.angle_fy = some fy) (hpos : 0 < fy) :
    (calculate_distances (some t) d h m s).2 = none ∧
    (calculate_distances (some t) d h m s).1.max_spacing
      = some ((⌈min (32 * t) 300⌉ : ℤ) : ℝ) ∧
    (calculate_distances (some t) d h m s).1.max_edge_dist
      = some ((⌈12 * t * Real.sqrt (250 / fy)⌉ : ℤ) : ℝ) := by
  have hne : fy ≠ 0 := ne_of_gt hpos
  have hnl : ¬fy < 0 := not_lt.mpr hpos.le
  unfold calculate_distances
  simp [hfy, hne, hnl]

/-- The calculator instance of the C1 witness: only `angle_fy` set. -/
def conn_fy250 : ConnState :=
  ⟨none, none, none, none, none, none, some 250, none, none, none, none,
    none, none⟩

theorem calculate_distances_max_formulas_witness :
    (calculate_distances (some 8) 20 22 1.5 conn_fy250).2 = none ∧
    (calculate_distances (some 8) 20 22 1.5 conn_fy250).1.max_spacing
      = some ((⌈min (32 * (8 : ℝ)) 300⌉ : ℤ) : ℝ) ∧
    (calculate_distances (some 8) 20 22 1.5 conn_fy250).1.max_edge_dist
      = some ((⌈12 * (8 : ℝ) * Real.sqrt (250 / 250)⌉ : ℤ) : ℝ) :=
  calculate_distances_max_formulas conn_fy250 8 250 20 22 1.5 rfl
    (by norm_num)

/-- C2 (code bug): at the valid odd diameter 27, `floor(2.5*27) = 67` is
not a multiple of 5; the pitch is correctly rounded up to 70, but the
gauge line reads the already reassigned `min_pitch`, yielding
`min_gauge = 75 ≠ 70 = min_pitch`, contradicting the claim that pitch
equals gauge and both equal the rounded-up value. -/
theorem calculate_distances_gauge_mismatch_at_27 :
    (calculate_distances none 27 29 1.5 ConnState.fresh).1.min_pitch
      = some 70 ∧
    (calculate_distances none 27 29 1.5 ConnState.fresh).1.min_gauge
      = some 75 ∧
    (70 : ℝ) ≠ 75 := by
  unfold calculate_distances
  rw [min_distances_27_29]
  norm_num

/-- C7 (amended): `calculate_distances` is NOT atomic.  A call that fails
with `NameError` because the ambient `thickness_governing` was never set
has already overwritten the four minimum-distance attributes with the
freshly computed values; only the two maximum attributes keep their prior
contents. -/
theorem calculate_distances_partial_mutation (s : ConnState) (d h m : ℝ) :
    (calculate_distances none d h m s).2 = some PyErr.nameError ∧
    (calculate_distances none d h m s).1.max_spacing = s.max_spacing ∧
    (calculate_distances none d h m s).1.max_edge_dist = s.max_edge_dist ∧
    (calculate_distances none d h m s).1.min_pitch
      = some (min_distances d h m).1 ∧
    (calculate_distances none d h m s).1.min_gauge
      = some (min_distances d h m).2.1 ∧
    (calculate_distances none d h m s).1.min_end_dist
      = some (min_distances d h m).2.2.1 ∧
    (calculate_distances none d h m s).1.min_edge_dist
      = some (min_distances d h m).2.2.2 := by
  unfold calculate_distances
  simp

/-- A calculator whose `min_pitch` attribute holds 999 before the call. -/
def conn_pitch999 : ConnState :=
  ⟨some 999, none, none, none, none, none, none, none, none, none, none,
    none, none⟩

/-- C7 counterexample: a failing `calculate_distances` call (ambient
governing thickness missing, so it raises `NameError`) does NOT leave
`min_pitch` as it was: the stored 999 has been overwritten with 50. -/
theorem calculate_distances_failure_overwrites :
    (calculate_distances none 20 22 1.5 conn_pitch999).2
      = some PyErr.nameError ∧
    conn_pitch999.min_pitch = some 999 ∧
    (calculate_distances none 20 22 1.5 conn_pitch999).1.min_pitch
      = some 50 ∧
    (50 : ℝ) ≠ 999 := by
  unfold calculate_distances
  rw [min_distances_20_22]
  norm_num [conn_pitch999]

theorem pyround3_one : pyround3 1 = 1 := by
  unfold pyround3
  have h : round ((1 : ℝ) * 1000) = 1000 := by
    rw [show ((1 : ℝ) * 1000) = ((1000 : ℤ) : ℝ) by norm_num, round_intCast]
  rw [h]
  norm_num

/-- C3: when the five attributes are present, the hole diameter is
positive and `angle_fu` is non-zero, `calculate_kb` succeeds and stores
`k_b = round(min(end/(3h), pitch/(3h) - 0.25, bolt_fu/angle_fu, 1), 3)`;
the stored value never exceeds 1, and it is exactly 1 as soon as the
three non-constant candidate terms all exceed 1 (a fortiori the claim's
condition that all four terms exceed 1). -/
theorem calculate_kb_capped (s : ConnState) (e p h fu afu : ℝ)
    (he : s.end_dist = some e) (hp : s.pitch = some p)
    (hh : s.bolt_hole_diameter = some h) (hfu : s.bolt_fu = some fu)
    (hafu : s.angle_fu = some afu) (hhpos : 0 < h) (hafune : afu ≠ 0) :
    (calculate_kb s).2 = none ∧
    (calculate_kb s).1.k_b = some (pyround3
      (min (min (min (e / (3 * h)) (p / (3 * h) - 0.25)) (fu / afu)) 1)) ∧
    (∀ v, (calculate_kb s).1.k_b = some v → v ≤ 1) ∧
    (1 < e / (3 * h) → 1 < p / (3 * h) - 0.25 → 1 < fu / afu →
      (calculate_kb s).1.k_b = some 1) := by
  have hne : h ≠ 0 := ne_of_gt hhpos
  have hmain : calculate_kb s
      = ({ s with k_b := some (pyround3
          (min (min (min (e / (3 * h)) (p / (3 * h) - 0.25)) (fu / afu)) 1)) },
        none) := by
    unfold calculate_kb
    rw [he, hp, hh, hfu, hafu]
    simp [hne, hafune]
  refine ⟨by rw [hmain], by rw [hmain], ?_, ?_⟩
  · intro v hv
    rw [hmain] at hv
    simp only [Option.some.injEq] at hv
    subst hv
    exact pyround3_le_one (min_le_right _ 1)
  · intro h1 h2 h3
    rw [hmain]
    have hm : min (min (min (e / (3 * h)) (p / (3 * h) - 0.25)) (fu / afu)) 1
        = 1 := by
      rw [min_eq_right]
      exact le_min (le_min (le_of_lt h1) (le_of_lt h2)) (le_of_lt h3)
    rw [hm, pyround3_one]

/-- The calculator instance of the C3 witness. -/
def conn_kb_inputs : ConnState :=
  ⟨none, none, none, none, none, none, none, some 33, some 50, some 22,
    some 400, some 410, none⟩

theorem calculate_kb_capped_witness :
    (calculate_kb conn_kb_inputs).2 = none ∧
    (calculate_kb conn_kb_inputs).1.k_b = some (pyround3
      (min (min (min ((33 : ℝ) / (3 * 22)) ((50 : ℝ) / (3 * 22) - 0.25))
        ((400 : ℝ) / 410)) 1)) ∧
    (∀ v, (calculate_kb conn_kb_inputs).1.k_b = some v → v ≤ 1) ∧
    (1 < (33 : ℝ) / (3 * 22) → 1 < (50 : ℝ) / (3 * 22) - 0.25 →
      1 < (400 : ℝ) / 410 →
      (calculate_kb conn_kb_inputs).1.k_b = some 1) :=
  calculate_kb_capped conn_kb_inputs 33 50 22 400 410 rfl rfl rfl rfl rfl
    (by norm_num) (by norm_num)
